import Mathlib

/-!
Verification development for the Spunky Bot game-server moderation bot
(`spunky.py`).  The Python source is shallowly embedded: each Python object
becomes a Lean structure, each mutating method becomes a pure function from
the old state (plus the relevant database/clock inputs) to the new state
together with the list of emitted RCON actions.  Machine time is modelled as
natural-number seconds; the SQL date strings compared with `>` in the source
are order-isomorphic to these numbers for sane dates, so "expires > now"
becomes `now < expires`.
-/

namespace Spunky

/-- Abstract outbound actions sent to the RCON collaborator
(`Game.send_rcon`, `Game.rcon_say`, `Game.rcon_tell`, `Game.kick_player`,
`Game.rcon_forceteam`, `Game.rcon_bigtext` in the source). -/
inductive Action where
  | say (msg : String)
  | tell (num : Nat) (msg : String)
  | bigtext (msg : String)
  | kick (num : Nat)
  | forceteam (num : Nat) (team : String)
  deriving Repr, DecidableEq

/-- Number of Kick actions in an action list. -/
def countKicks (l : List Action) : Nat :=
  (l.filter (fun a => match a with | Action.kick _ => true | _ => false)).length

/-- Number of ForceTeam actions in an action list. -/
def countForce (l : List Action) : Nat :=
  (l.filter (fun a => match a with | Action.forceteam _ _ => true | _ => false)).length

/-- A row of the `ban_points` table: guid, point type tag, expiry time. -/
structure BanPoint where
  guid : String
  point_type : String
  expires : Nat
  deriving Repr, DecidableEq

/-- A row of the `ban_list` table (the fields the core logic writes). -/
structure BanRecord where
  guid : String
  name : String
  address : String
  expires : Nat
  timestamp : Nat
  reason : String
  deriving Repr, DecidableEq

/-- The persistence collaborator state: the two tables the escalation
engine writes. -/
structure DB where
  ban_points : List BanPoint
  ban_list : List BanRecord
  deriving Repr, DecidableEq

/-- The Player entity (`class Player`), restricted to the fields read or
written by the embedded methods.  Counters are naturals; `team` uses the
source encoding 0 = green, 1 = red, 2 = blue, 3 = spectator. -/
structure Player where
  player_num : Nat
  guid : String
  name : String
  address : String
  admin_role : Nat
  kills : Nat
  db_kills : Nat
  killing_streak : Nat
  max_kill_streak : Nat
  db_killing_streak : Nat
  deaths : Nat
  db_deaths : Nat
  db_suicide : Nat
  head_shots : Nat
  db_head_shots : Nat
  all_hits : Nat
  tk_count : Nat
  db_tk_count : Nat
  db_team_death : Nat
  tk_victim_names : List Nat
  tk_killer_names : List Nat
  ping_value : Nat
  high_ping_count : Nat
  spec_warn_count : Nat
  warn_counter : Nat
  flags_captured : Nat
  flags_returned : Nat
  team : Nat
  time_joined : Nat
  deriving Repr, DecidableEq

namespace Player

/-- Source `Player.teams` dictionary. -/
def teams : Nat → String
  | 0 => "green"
  | 1 => "red"
  | 2 => "blue"
  | _ => "spectator"

/-- Source `Player.reset` (called for every player at a Warmup event). -/
def reset (p : Player) : Player :=
  { p with
    kills := 0
    killing_streak := 0
    max_kill_streak := 0
    deaths := 0
    head_shots := 0
    all_hits := 0
    tk_count := 0
    tk_victim_names := []
    tk_killer_names := []
    warn_counter := 0
    flags_captured := 0
    flags_returned := 0 }

/-- Source `Player.reset_flag_stats` (round init under CTF). -/
def reset_flag_stats (p : Player) : Player :=
  { p with flags_captured := 0, flags_returned := 0 }

/-- Source `Player.kill`. -/
def kill (p : Player) : Player :=
  { p with
    killing_streak := p.killing_streak + 1
    kills := p.kills + 1
    db_kills := p.db_kills + 1 }

/-- Source `Player.die`. -/
def die (p : Player) : Player :=
  let mks := if p.killing_streak > p.max_kill_streak then p.killing_streak else p.max_kill_streak
  let dbks := if mks > p.db_killing_streak then mks else p.db_killing_streak
  { p with
    max_kill_streak := mks
    db_killing_streak := dbks
    killing_streak := 0
    deaths := p.deaths + 1
    db_deaths := p.db_deaths + 1 }

/-- Source `Player.suicide`. -/
def suicide (p : Player) : Player :=
  { p with db_suicide := p.db_suicide + 1 }

/-- Source `Player.headshot`. -/
def headshot (p : Player) : Player :=
  { p with head_shots := p.head_shots + 1, db_head_shots := p.db_head_shots + 1 }

/-- Source `Player.team_death`. -/
def team_death (p : Player) : Player :=
  { p with db_team_death := p.db_team_death + 1 }

/-- Source `Player.add_spec_warning`. -/
def add_spec_warning (p : Player) : Player :=
  { p with spec_warn_count := p.spec_warn_count + 1 }

/-- Source `Player.clear_spec_warning`. -/
def clear_spec_warning (p : Player) : Player :=
  { p with spec_warn_count := 0 }

/-- Source `Player.add_warning`. -/
def add_warning (p : Player) : Player :=
  { p with warn_counter := p.warn_counter + 1 }

/-- Source `Player.add_high_ping`. -/
def add_high_ping (p : Player) (value : Nat) : Player :=
  { p with high_ping_count := p.high_ping_count + 1, ping_value := value }

/-- Source `Player.clear_high_ping`. -/
def clear_high_ping (p : Player) : Player :=
  { p with high_ping_count := 0 }

/-- Source `Player.capture_flag`. -/
def capture_flag (p : Player) : Player :=
  { p with flags_captured := p.flags_captured + 1 }

/-- Source `Player.return_flag`. -/
def return_flag (p : Player) : Player :=
  { p with flags_returned := p.flags_returned + 1 }

/-- A ban point is active (counted by the SQL query
`SELECT COUNT(*) ... WHERE guid = ? AND expires > ?`) iff it names the
guid and has not yet expired. -/
def pointActive (guid : String) (now : Nat) (bp : BanPoint) : Bool :=
  bp.guid == guid && now < bp.expires

/-- Number of currently-active ban points of a guid. -/
def activePoints (db : DB) (guid : String) (now : Nat) : Nat :=
  (db.ban_points.filter (pointActive guid now)).length

/-- Source `Player.ban`: inserts a `ban_list` row whose expiry is
`now + duration` and kicks the player.  `admin = none` corresponds to the
default `admin=None` argument. -/
def ban (p : Player) (db : DB) (now duration : Nat) (reason : String)
    (admin : Option String) : DB × List Action :=
  let reason' := match admin with
    | some a => reason ++ ", ban by " ++ a
    | none => reason
  let record : BanRecord :=
    { guid := p.guid, name := p.name, address := p.address,
      expires := now + duration, timestamp := now, reason := reason' }
  ({ db with ban_list := db.ban_list ++ [record] }, [Action.kick p.player_num])

/-- Source `Player.add_ban_point`: insert a `ban_points` row expiring at
`now + duration`, then count the guid's active points; if more than one is
active, ban for three times the base duration with the point type as
reason. -/
def add_ban_point (p : Player) (db : DB) (now : Nat) (point_type : String)
    (duration : Nat) : DB × List Action :=
  let db1 : DB :=
    { db with ban_points := db.ban_points ++ [⟨p.guid, point_type, now + duration⟩] }
  if activePoints db1 p.guid now > 1 then
    let ban_duration := duration * 3
    let (db2, acts) := ban p db1 now ban_duration point_type none
    (db2, acts ++ [Action.say (p.name ++ " banned for too many warnings")])
  else
    (db1, [])

/-- Source `Player.team_kill`: unconditionally bumps the round and lifetime
team-kill counters; for killers below the Regular role (< 2) with autokick
enabled, records the offense in both forgiveness lists, sends the private
notifications, and escalates: auto-kick plus a 900-second ban point at five
unforgiven offenses, progressive warnings at two, three and four.
Returns (killer, victim, db, actions). -/
def team_kill (killer victim : Player) (db : DB) (now : Nat)
    (autokick : Bool) : Player × Player × DB × List Action :=
  let k1 := { killer with tk_count := killer.tk_count + 1,
                          db_tk_count := killer.db_tk_count + 1 }
  if k1.admin_role < 2 && autokick then
    let k2 := { k1 with tk_victim_names := k1.tk_victim_names ++ [victim.player_num] }
    let v2 := { victim with tk_killer_names := victim.tk_killer_names ++ [killer.player_num] }
    let acts0 := [Action.tell killer.player_num ("Do not attack teammates, you killed " ++ victim.name),
                  Action.tell victim.player_num ("Type !fp to forgive " ++ k1.name)]
    if k2.tk_victim_names.length ≥ 5 then
      let (db', acts1) := add_ban_point k2 db now "tk, auto-kick" 900
      (k2, v2, db', acts0 ++ [Action.say ("Player " ++ k2.name ++ " kicked for team killing")]
                 ++ acts1 ++ [Action.kick k2.player_num])
    else if k2.tk_victim_names.length == 2 then
      (k2, v2, db, acts0 ++ [Action.tell k2.player_num "WARNING 1: For team killing you will get kicked"])
    else if k2.tk_victim_names.length == 3 then
      (k2, v2, db, acts0 ++ [Action.tell k2.player_num "WARNING 2: For team killing you will get kicked"])
    else if k2.tk_victim_names.length == 4 then
      (k2, v2, db, acts0 ++ [Action.tell k2.player_num "WARNING 3: For team killing you will get kicked"])
    else
      (k2, v2, db, acts0)
  else
    (k1, victim, db, [])

end Player

/-- A player value with every counter zero and empty lists, used to build
concrete test players. -/
def basePlayer : Player :=
  { player_num := 0, guid := "GUID0", name := "Noob", address := "1.2.3.4",
    admin_role := 0, kills := 0, db_kills := 0, killing_streak := 0,
    max_kill_streak := 0, db_killing_streak := 0, deaths := 0, db_deaths := 0,
    db_suicide := 0, head_shots := 0, db_head_shots := 0, all_hits := 0,
    tk_count := 0, db_tk_count := 0, db_team_death := 0, tk_victim_names := [],
    tk_killer_names := [], ping_value := 0, high_ping_count := 0,
    spec_warn_count := 0, warn_counter := 0, flags_captured := 0,
    flags_returned := 0, team := 3, time_joined := 0 }

/-- The empty database. -/
def emptyDB : DB := { ban_points := [], ban_list := [] }

/-- Test whether the first list is an initial segment of the second
(used to model the Python substring operator `in`). -/
def leadsWith : List Char → List Char → Bool
  | [], _ => true
  | _ :: _, [] => false
  | a :: as, b :: bs => a == b && leadsWith as bs

/-- Test whether `pat` occurs as a contiguous sublist (Python `pat in s`). -/
def containsSub (pat : List Char) : List Char → Bool
  | [] => leadsWith pat []
  | c :: t => leadsWith pat (c :: t) || containsSub pat t

/-! ### TaskManager.check_warnings_and_specs

The per-player body of the sweep loop is a sequence of three independent
blocks; each is embedded separately and the whole body is their
composition.  The sweep context carries the connected-player `counter`
(`len(game.players) - 1`), the `num_kick_specs` configuration value and the
current time. -/

/-- First block of the sweep body: the three kick rules (generic warnings,
high ping, spectator), an if/elif/elif chain that changes no counters. -/
def kickBlock (p : Player) : List Action :=
  if p.warn_counter > 2 && p.admin_role < 40 then
    [Action.say ("Player " ++ p.name ++ " kicked, because of too many warnings"),
     Action.kick p.player_num]
  else if p.high_ping_count > 2 && p.admin_role < 40 then
    [Action.say ("Player " ++ p.name ++ " kicked, ping was too high for this server"),
     Action.kick p.player_num]
  else if p.spec_warn_count > 2 && p.admin_role < 20 then
    [Action.say ("Player " ++ p.name ++ " kicked, spectator too long on full server"),
     Action.kick p.player_num]
  else
    []

/-- Second block of the sweep body (source lines 130-135): at a generic or
spectator warning count of exactly 2, for roles below 40, broadcast the
auto-kick alert and pre-increment both counters. -/
def alertBlock (p : Player) : Player × List Action :=
  if (p.warn_counter == 2 || p.spec_warn_count == 2) && p.admin_role < 40 then
    (p.add_spec_warning.add_warning,
     [Action.say ("ALERT: Player " ++ p.name ++ ", auto-kick from warnings if not cleared")])
  else
    (p, [])

/-- Third block of the sweep body: the spectator-on-full-server warning.
Skipped entirely when `num_kick_specs` is 0; a `GTV-` name prefix skips the
rest of the loop body (nothing follows, so it is a no-op). -/
def specBlock (p : Player) (num_kick_specs counter now : Nat) : Player × List Action :=
  if num_kick_specs > 0 then
    if containsSub "GTV-".toList p.name.toList then (p, [])
    else if counter > num_kick_specs && p.team == 3 && p.admin_role < 20 &&
            p.time_joined < now - 30 && p.player_num != 1022 then
      (p.add_spec_warning,
       [Action.tell p.player_num "WARNING: You are spectator too long on full server"])
    else
      (p.clear_spec_warning, [])
  else
    (p, [])

/-- The full per-player body of `TaskManager.check_warnings_and_specs`. -/
def sweepPlayer (p : Player) (num_kick_specs counter now : Nat) : Player × List Action :=
  let a1 := kickBlock p
  let r2 := alertBlock p
  let r3 := specBlock r2.1 num_kick_specs counter now
  (r3.1, a1 ++ r2.2 ++ r3.2)

/-! ### LogParser.handle_awards

The end-of-round awards loop.  The source keeps the winner's display name
(`player.get_name()`) at selection time; since no player is mutated during
the loop, the embedding keeps the selected player and reads the name when
the message is built, which yields the same announcement. -/

/-- Accumulator of the awards loop. -/
structure AwardAcc where
  most_kills : Nat
  most_flags : Nat
  most_streak : Nat
  most_hs : Nat
  flagrunner : Option Player
  serialkiller : Option Player
  streaker : Option Player
  headshooter : Option Player
  deriving Repr, DecidableEq

/-- Initial accumulator (all maxima 0, no winners). -/
def initAcc : AwardAcc :=
  { most_kills := 0, most_flags := 0, most_streak := 0, most_hs := 0,
    flagrunner := none, serialkiller := none, streaker := none,
    headshooter := none }

/-- One iteration of the awards loop: the four strict-maximum updates; the
kills and streak updates exclude the sentinel slot 1022, the flag and
headshot updates do not. -/
def awardStep (acc : AwardAcc) (p : Player) : AwardAcc :=
  let a1 := if p.flags_captured > acc.most_flags then
      { acc with most_flags := p.flags_captured, flagrunner := some p } else acc
  let a2 := if p.kills > a1.most_kills && p.player_num != 1022 then
      { a1 with most_kills := p.kills, serialkiller := some p } else a1
  let a3 := if p.max_kill_streak > a2.most_streak && p.player_num != 1022 then
      { a2 with most_streak := p.max_kill_streak, streaker := some p } else a2
  if p.head_shots > a3.most_hs then
    { a3 with most_hs := p.head_shots, headshooter := some p } else a3

/-- Display name of a selected winner ("" when none was selected, matching
the source's initial empty string). -/
def winnerName : Option Player → String
  | some p => p.name
  | none => ""

/-- The award messages: each award is announced only if its maximum
exceeds 1. -/
def awardMsgs (acc : AwardAcc) : List String :=
  (if acc.most_flags > 1 then
    [winnerName acc.flagrunner ++ ": " ++ toString acc.most_flags ++ " caps"] else []) ++
  (if acc.most_kills > 1 then
    [winnerName acc.serialkiller ++ ": " ++ toString acc.most_kills ++ " kills"] else []) ++
  (if acc.most_streak > 1 then
    [winnerName acc.streaker ++ ": " ++ toString acc.most_streak ++ " streaks"] else []) ++
  (if acc.most_hs > 1 then
    [winnerName acc.headshooter ++ ": " ++ toString acc.most_hs ++ " heads"] else [])

/-- Source `LogParser.handle_awards` over the connected-player list:
computes the four winners, sends every non-spectator their personal stats,
and broadcasts the award line when any award was earned. -/
def handle_awards (players : List Player) : AwardAcc × List Action :=
  let acc := players.foldl awardStep initAcc
  let tells := players.filterMap fun p =>
    if p.team != 3 then some (Action.tell p.player_num ("Stats " ++ p.name)) else none
  let msgs := awardMsgs acc
  (acc, tells ++ if msgs.isEmpty then [] else
    [Action.say ("AWARDS: " ++ String.intercalate " - " msgs)])

/-- The reserved pseudo-player added at startup:
`Player(1022, '127.0.0.1', 'NONE', 'World')` (spectator team). -/
def worldPlayer : Player :=
  { basePlayer with
    player_num := 1022, guid := "NONE", name := "World",
    address := "127.0.0.1", team := 3 }

/-- Invariant: the kills and streak winners are never the sentinel slot. -/
def accExcludesWorld (acc : AwardAcc) : Prop :=
  (∀ q, acc.serialkiller = some q → q.player_num ≠ 1022) ∧
  (∀ q, acc.streaker = some q → q.player_num ≠ 1022)

/-! ### Game.balance_teams

`get_gamestats` counts the red (1), blue (2) and spectator (3) teams;
`balance_teams` moves `floor(surplus / 2)` players of the larger team,
most-recently-joined first, to the smaller team.  The source sorts with
a comparator that orders strictly later join times first (Python's stable
sort); insertion sort over the same total preorder realises such an
ordering. -/

/-- Sort-order relation of `cmp_ab`: `p` comes before `q` when `p` joined
no earlier than `q`. -/
def laterJoined (p q : Player) : Prop := q.time_joined ≤ p.time_joined

instance : DecidableRel laterJoined :=
  fun p q => inferInstanceAs (Decidable (q.time_joined ≤ p.time_joined))

instance : IsTotal Player laterJoined :=
  ⟨fun a b => (Nat.le_total b.time_joined a.time_joined).imp id id⟩

instance : IsTrans Player laterJoined :=
  ⟨fun _ _ _ hab hbc => Nat.le_trans hbc hab⟩

/-- Number of connected players on team `t` (`Game.get_gamestats`). -/
def teamCount (players : List Player) (t : Nat) : Nat :=
  (players.filter fun p => p.team == t).length

/-- The members of team `t`, most-recently-joined first (`p_list` after
`p_list.sort(cmp_ab)`). -/
def sortedTeam (players : List Player) (t : Nat) : List Player :=
  List.insertionSort laterJoined (players.filter fun p => p.team == t)

/-- The players selected to be moved from `team1` to `team2`:
the first `floor((count1 - count2) / 2)` of the sorted larger team. -/
def balanceMoved (players : List Player) (team1 team2 : Nat) : List Player :=
  (sortedTeam players team1).take
    ((teamCount players team1 - teamCount players team2) / 2)

/-- Source `Game.balance_teams` (fed with `get_gamestats` data, as its only
caller does): emits the bigtext banner, one ForceTeam per moved player, and
the completion message; announces "already balanced" when the imbalance is
at most 1. -/
def balance_teams (players : List Player) : List Action :=
  if teamCount players 1 - teamCount players 2 > 1 then
    [Action.bigtext "AUTOBALANCING TEAMS..."] ++
    (balanceMoved players 1 2).map
      (fun p => Action.forceteam p.player_num (Player.teams 2)) ++
    [Action.say "Autobalance complete!"]
  else if teamCount players 2 - teamCount players 1 > 1 then
    [Action.bigtext "AUTOBALANCING TEAMS..."] ++
    (balanceMoved players 2 1).map
      (fun p => Action.forceteam p.player_num (Player.teams 1)) ++
    [Action.say "Autobalance complete!"]
  else
    [Action.say "Teams are already balanced"]

/-! ### LogParser.handle_kill

The connected players form a slot-indexed map, embedded as an association
list; Python object mutation through a reference becomes an in-place update
of the slot's entry, and every later read re-reads the map, which preserves
aliasing behaviour (e.g. a self-kill, where killer and victim are the same
object). -/

/-- The UrT 4.2 death-cause table (`self.death_cause` set in `__init__`). -/
def deathCause42 : Nat → Option String
  | 1 => some "MOD_WATER"
  | 3 => some "MOD_LAVA"
  | 5 => some "UT_MOD_TELEFRAG"
  | 6 => some "MOD_FALLING"
  | 7 => some "UT_MOD_SUICIDE"
  | 9 => some "MOD_TRIGGER_HURT"
  | 10 => some "MOD_CHANGE_TEAM"
  | 12 => some "UT_MOD_KNIFE"
  | 13 => some "UT_MOD_KNIFE_THROWN"
  | 14 => some "UT_MOD_BERETTA"
  | 15 => some "UT_MOD_KNIFE_DEAGLE"
  | 16 => some "UT_MOD_SPAS"
  | 17 => some "UT_MOD_UMP45"
  | 18 => some "UT_MOD_MP5K"
  | 19 => some "UT_MOD_LR300"
  | 20 => some "UT_MOD_G36"
  | 21 => some "UT_MOD_PSG1"
  | 22 => some "UT_MOD_HK69"
  | 23 => some "UT_MOD_BLED"
  | 24 => some "UT_MOD_KICKED"
  | 25 => some "UT_MOD_HEGRENADE"
  | 28 => some "UT_MOD_SR8"
  | 30 => some "UT_MOD_AK103"
  | 31 => some "UT_MOD_SPLODED"
  | 32 => some "UT_MOD_SLAPPED"
  | 34 => some "UT_MOD_BOMBED"
  | 35 => some "UT_MOD_NUKED"
  | 36 => some "UT_MOD_NEGEV"
  | 37 => some "UT_MOD_HK69_HIT"
  | 38 => some "UT_MOD_M4"
  | 39 => some "UT_MOD_GLOCK"
  | 40 => some "UT_MOD_COLT1911"
  | 41 => some "UT_MOD_MAC11"
  | 42 => some "UT_MOD_FLAG"
  | _ => none

/-- The UrT 4.1 death-cause table (installed by `find_game_start` when the
4.1 mod version marker is seen). -/
def deathCause41 : Nat → Option String
  | 1 => some "MOD_WATER"
  | 3 => some "MOD_LAVA"
  | 5 => some "UT_MOD_TELEFRAG"
  | 6 => some "MOD_FALLING"
  | 7 => some "UT_MOD_SUICIDE"
  | 9 => some "MOD_TRIGGER_HURT"
  | 10 => some "MOD_CHANGE_TEAM"
  | 12 => some "UT_MOD_KNIFE"
  | 13 => some "UT_MOD_KNIFE_THROWN"
  | 14 => some "UT_MOD_BERETTA"
  | 15 => some "UT_MOD_KNIFE_DEAGLE"
  | 16 => some "UT_MOD_SPAS"
  | 17 => some "UT_MOD_UMP45"
  | 18 => some "UT_MOD_MP5K"
  | 19 => some "UT_MOD_LR300"
  | 20 => some "UT_MOD_G36"
  | 21 => some "UT_MOD_PSG1"
  | 22 => some "UT_MOD_HK69"
  | 23 => some "UT_MOD_BLED"
  | 24 => some "UT_MOD_KICKED"
  | 25 => some "UT_MOD_HEGRENADE"
  | 28 => some "UT_MOD_SR8"
  | 30 => some "UT_MOD_AK103"
  | 31 => some "UT_MOD_SPLODED"
  | 32 => some "UT_MOD_SLAPPED"
  | 33 => some "UT_MOD_BOMBED"
  | 34 => some "UT_MOD_NUKED"
  | 35 => some "UT_MOD_NEGEV"
  | 37 => some "UT_MOD_HK69_HIT"
  | 38 => some "UT_MOD_M4"
  | 39 => some "UT_MOD_FLAG"
  | 40 => some "UT_MOD_GOOMBA"
  | _ => none

/-- The death-cause table in use, selected by the mod-version flag. -/
def deathCauseTable (urt42 : Bool) : Nat → Option String :=
  if urt42 then deathCause42 else deathCause41

/-- Parser state relevant to `handle_kill`. -/
structure KillCtx where
  ffa_lms_gametype : Bool
  urt42_modversion : Bool
  tk_autokick : Bool
  deriving Repr, DecidableEq

/-- The slot-indexed player registry `game.players`. -/
abbrev PMap := List (Nat × Player)

/-- Look up the player on slot `i` (`game.players[i]`; `none` is the
`KeyError` case). -/
def findPlayer (m : PMap) (i : Nat) : Option Player :=
  (List.find? (fun e => e.1 == i) m).map (fun e => e.2)

/-- Mutate the object on slot `i` in place. -/
def applyAt (m : PMap) (i : Nat) (f : Player → Player) : PMap :=
  List.map (fun e => if e.1 == i then (e.1, f e.2) else e) m

/-- Read the object on slot `i`, defaulting (never reached on slots known
to be present). -/
def getP (m : PMap) (i : Nat) : Player :=
  (findPlayer m i).getD basePlayer

/-- The effective killer slot: the sentinel 1022 when the log line names
`<non-client>` as the killer, else the attacker slot of the line. -/
def kidSlot (nonClient : Bool) (killer_id : Nat) : Nat :=
  if nonClient then 1022 else killer_id

/-- The `suicide_reason` list of `handle_kill`. -/
def suicideReasons : List String :=
  ["UT_MOD_SUICIDE", "MOD_FALLING", "MOD_WATER", "MOD_LAVA",
   "MOD_TRIGGER_HURT", "UT_MOD_SPLODED"]

/-- Killing-spree announcements after `killer.kill()` (streak read on the
updated object, suppressed for the sentinel slot). -/
def streakMsgs (ks : Nat) (kid : Nat) (killer_name : String) : List Action :=
  if ks == 5 && kid != 1022 then [Action.say (killer_name ++ " is on a killing spree!")]
  else if ks == 10 && kid != 1022 then [Action.say (killer_name ++ " is on a rampage!")]
  else if ks == 15 && kid != 1022 then [Action.say (killer_name ++ " is unstoppable!")]
  else if ks == 20 && kid != 1022 then [Action.say (killer_name ++ " is godlike!")]
  else []

/-- Spree-ended announcements (victim streak read before `victim.die()`). -/
def streakEndMsgs (vs : Nat) (kid : Nat) (killer_name victim_name : String) : List Action :=
  if vs ≥ 20 && killer_name != victim_name && kid != 1022 then
    [Action.say (victim_name ++ "'s godlike was ended by " ++ killer_name ++ "!")]
  else if vs ≥ 15 && killer_name != victim_name && kid != 1022 then
    [Action.say (victim_name ++ "'s unstoppable was ended by " ++ killer_name ++ "!")]
  else if vs ≥ 10 && killer_name != victim_name && kid != 1022 then
    [Action.say (victim_name ++ "'s rampage was ended by " ++ killer_name ++ "!")]
  else if vs ≥ 5 && killer_name != victim_name && kid != 1022 then
    [Action.say (victim_name ++ "'s killing spree was ended by " ++ killer_name ++ "!")]
  else []

/-- Source `LogParser.handle_kill`.  `nonClient` is the
`k_name == "<non-client>"` test (environmental kill, attributed to slot
1022).  Returns `none` when the death-cause lookup or a slot lookup raises
`KeyError` (the line is then dropped by `parse_line`). -/
def handle_kill (st : KillCtx) (m : PMap) (db : DB) (now : Nat)
    (killer_id victim_id cause_code : Nat) (nonClient : Bool) :
    Option (PMap × DB × List Action) :=
  match deathCauseTable st.urt42_modversion cause_code with
  | none => none
  | some death_cause =>
    match findPlayer m victim_id with
    | none => none
    | some victim =>
      match findPlayer m (kidSlot nonClient killer_id) with
      | none => none
      | some killer =>
        -- teamkill event, disabled for FFA/LMS/Jump and for UT_MOD_BOMBED
        let tkb :=
          if !st.ffa_lms_gametype &&
             (victim.team == killer.team &&
              victim_id != kidSlot nonClient killer_id) &&
             death_cause != "UT_MOD_BOMBED" then
            let r := Player.team_kill killer victim db now st.tk_autokick
            (applyAt (applyAt m (kidSlot nonClient killer_id) (fun _ => r.1))
              victim_id (fun _ => Player.team_death r.2.1),
             r.2.2.1, r.2.2.2, true)
          else (m, db, ([] : List Action), false)
        if suicideReasons.contains death_cause ||
           (kidSlot nonClient killer_id == victim_id &&
             (death_cause == "UT_MOD_HEGRENADE" || death_cause == "UT_MOD_HK69" ||
              death_cause == "UT_MOD_NUKED" || death_cause == "UT_MOD_SLAPPED" ||
              death_cause == "UT_MOD_BOMBED")) then
          some (applyAt (applyAt tkb.1 victim_id Player.suicide) victim_id Player.die,
                tkb.2.1, tkb.2.2.1)
        else if !tkb.2.2.2 && cause_code != 10 then
          let m2 := applyAt tkb.1 (kidSlot nonClient killer_id) Player.kill
          some (applyAt m2 victim_id Player.die, tkb.2.1,
            tkb.2.2.1 ++
            streakMsgs (getP m2 (kidSlot nonClient killer_id)).killing_streak
              (kidSlot nonClient killer_id) killer.name ++
            streakEndMsgs (getP m2 victim_id).killing_streak
              (kidSlot nonClient killer_id) killer.name victim.name)
        else
          some (tkb.1, tkb.2.1, tkb.2.2.1)

/-! ### LogParser.find_game_start

Startup recovery scans the log file backward in 768-byte windows for the
most recent `InitGame:` marker.  The file is embedded as a list of bytes
(characters); `readline` at a byte position returns the characters up to
and including the next newline.  Positions are naturals; the model covers
files of at least one window (768 bytes), where the source's
`tell() - seek_amount` is non-negative.  The `re.search` call is embedded
as a leftmost-match scanner for the pattern digits, colon, digits, one
whitespace character, letters, colon; because each greedy piece is
followed by a character it can never match, maximal munch coincides with
the backtracking semantics. -/

/-- Game-type classification state of the parser, as set by
`find_game_start` (`urt42_modversion` selects the hit/death tables). -/
structure ScanState where
  ffa_lms_gametype : Bool
  ctf_gametype : Bool
  ts_gametype : Bool
  urt42_modversion : Bool
  deriving Repr, DecidableEq

/-- ASCII letter class of the regex `[A-Za-z]`. -/
def isAlphaRe (c : Char) : Bool :=
  ('A' ≤ c && c ≤ 'Z') || ('a' ≤ c && c ≤ 'z')

/-- Whitespace class of the regex `\s` (byte semantics). -/
def isSpaceRe (c : Char) : Bool :=
  c == ' ' || c == '\t' || c == '\n' || c == '\r' ||
  c == '\x0b' || c == '\x0c'

/-- Try to match `\d+:\d+\s[A-Za-z]+:` anchored at the head of `cs`,
returning the second capture group (letters plus colon) on success. -/
def matchGroup2At (cs : List Char) : Option (List Char) :=
  let d1 := cs.takeWhile Char.isDigit
  if d1.isEmpty then none else
  match cs.drop d1.length with
  | ':' :: r2 =>
    let d2 := r2.takeWhile Char.isDigit
    if d2.isEmpty then none else
    (match r2.drop d2.length with
     | w :: r3 =>
       if isSpaceRe w then
         let l := r3.takeWhile isAlphaRe
         if l.isEmpty then none else
         (match r3.drop l.length with
          | ':' :: _ => some (l ++ [':'])
          | _ => none)
       else none
     | [] => none)
  | _ => none

/-- Leftmost-match search of the pattern
(`re.search(r"(\d+:\d+)\s([A-Za-z]+:)", line)`), returning group 2. -/
def reSearchGroup2 : List Char → Option (List Char)
  | [] => none
  | c :: t =>
    match matchGroup2At (c :: t) with
    | some g => some g
    | none => reSearchGroup2 t

/-- A line is an InitGame marker when the leftmost match's group 2 equals
`InitGame:`. -/
def isInitGameLine (line : List Char) : Bool :=
  match reSearchGroup2 line with
  | some g => g == "InitGame:".toList
  | none => false

/-- The InitGame classification body of `find_game_start`: the 4.1
mod-version check, then the if/elif gametype chain. -/
def classifyInit (st : ScanState) (line : List Char) : ScanState :=
  let st1 := if containsSub "g_modversion\\4.1".toList line then
      { st with urt42_modversion := false } else st
  if containsSub "g_gametype\\0".toList line ||
     containsSub "g_gametype\\1".toList line ||
     containsSub "g_gametype\\9".toList line then
    { st1 with ffa_lms_gametype := true }
  else if containsSub "g_gametype\\7".toList line then
    { st1 with ctf_gametype := true }
  else if containsSub "g_gametype\\4".toList line then
    { st1 with ts_gametype := true }
  else st1

/-- Split off the first line (up to and including the first newline; the
whole list when it has no newline). -/
def splitFirstLine : List Char → List Char × List Char
  | [] => ([], [])
  | c :: cs =>
    if c = '\n' then ([c], cs)
    else
      let r := splitFirstLine cs
      (c :: r.1, r.2)

/-- A list is its first line plus the remainder. -/
theorem splitFirstLine_append (l : List Char) :
    (splitFirstLine l).1 ++ (splitFirstLine l).2 = l := by
  induction l with
  | nil => rfl
  | cons c cs ih =>
    unfold splitFirstLine
    split
    · simp_all
    · simpa using ih

/-- The first line of a non-empty list is non-empty. -/
theorem splitFirstLine_fst_ne (c : Char) (cs : List Char) :
    (splitFirstLine (c :: cs)).1 ≠ [] := by
  unfold splitFirstLine
  split <;> simp

/-- The first line is no longer than the list. -/
theorem splitFirstLine_fst_length_le (l : List Char) :
    (splitFirstLine l).1.length ≤ l.length := by
  conv_rhs => rw [← splitFirstLine_append l]
  simp

/-- Dropping the first line leaves the remainder. -/
theorem drop_splitFirst (l : List Char) :
    l.drop (splitFirstLine l).1.length = (splitFirstLine l).2 := by
  induction l with
  | nil => rfl
  | cons c cs ih =>
    by_cases hc : c = '\n'
    · subst hc
      simp [splitFirstLine]
    · simp [splitFirstLine, hc, ih]

/-- The lines of a byte stream, in order (`readline` until exhaustion). -/
def linesOf (l : List Char) : List (List Char) :=
  if h : l = [] then []
  else
    have : (splitFirstLine l).2.length < l.length := by
      have h1 := splitFirstLine_append l
      have h2 : (splitFirstLine l).1.length ≠ 0 := by
        cases l with
        | nil => exact absurd rfl h
        | cons c cs => simpa using splitFirstLine_fst_ne c cs
      have := congrArg List.length h1
      simp only [List.length_append] at this
      omega
    (splitFirstLine l).1 :: linesOf (splitFirstLine l).2
termination_by l.length

/-- One pass of the inner `while` of `find_game_start`: read lines from
byte position `pos`, classifying every InitGame marker, until the read
cursor passes `end_pos` or the file is exhausted.  Returns the state, the
`game_start` flag, and the final cursor. -/
def innerScan (f : List Char) (pos end_pos : Nat) (st : ScanState)
    (found : Bool) : ScanState × Bool × Nat :=
  let line := (splitFirstLine (f.drop pos)).1
  let st' := if isInitGameLine line then classifyInit st line else st
  let found' := found || isInitGameLine line
  let newPos := pos + line.length
  if newPos > end_pos then (st', found', newPos)
  else if h0 : line.length = 0 then (st', found', newPos)
  else
    have hle : line.length ≤ f.length - pos := by
      have h1 := splitFirstLine_fst_length_le (f.drop pos)
      simpa using h1
    have : f.length - (pos + line.length) < f.length - pos := by omega
    innerScan f newPos end_pos st' found'
termination_by f.length - pos

/-- The outer window loop of `find_game_start`, fuelled: run an inner pass
from the cursor; stop once a marker was found; otherwise seek to the file
start (when the cursor is inside the first window) or shift the window one
step towards the file start.  `none` means the fuel ran out. -/
def outerScan (f : List Char) :
    Nat → Nat → Nat → Nat → ScanState → Option ScanState
  | 0, _, _, _, _ => none
  | fuel + 1, cursor, start_pos, end_pos, st =>
    let r := innerScan f cursor end_pos st false
    if r.2.1 then some r.1
    else if r.2.2 < 768 then
      outerScan f fuel 0 start_pos end_pos r.1
    else
      outerScan f fuel (start_pos - 768) (start_pos - 768) start_pos r.1

/-- Source `LogParser.find_game_start` on a file of length at least one
window: the first window is the last 768 bytes. -/
def find_game_start (f : List Char) (st : ScanState) : Option ScanState :=
  outerScan f (f.length / 768 + 2) (f.length - 768) (f.length - 768)
    f.length st

/-- A forward scan from the start of the file: classify every InitGame
marker in line order. -/
def forwardScan (f : List Char) (st : ScanState) : ScanState :=
  (linesOf f).foldl
    (fun s line => if isInitGameLine line then classifyInit s line else s) st

/-! ## Theorems -/

/-- The kills winner after one awards step is either unchanged or the
stepped player, and in the latter case that player is not slot 1022. -/
theorem awardStep_serialkiller_cases (acc : AwardAcc) (p : Player) :
    (awardStep acc p).serialkiller = acc.serialkiller ∨
    ((awardStep acc p).serialkiller = some p ∧ p.player_num ≠ 1022) := by
  unfold awardStep
  dsimp only
  split <;> split <;> split <;> split <;> simp_all

/-- The streak winner after one awards step is either unchanged or the
stepped player, and in the latter case that player is not slot 1022. -/
theorem awardStep_streaker_cases (acc : AwardAcc) (p : Player) :
    (awardStep acc p).streaker = acc.streaker ∨
    ((awardStep acc p).streaker = some p ∧ p.player_num ≠ 1022) := by
  unfold awardStep
  dsimp only
  split <;> split <;> split <;> split <;> simp_all

/-- One awards step preserves the sentinel exclusion for kills/streak. -/
theorem awardStep_excludes_world (acc : AwardAcc) (p : Player)
    (h : accExcludesWorld acc) : accExcludesWorld (awardStep acc p) := by
  obtain ⟨h1, h2⟩ := h
  constructor
  · intro q hq
    rcases awardStep_serialkiller_cases acc p with hc | ⟨hc, hn⟩
    · exact h1 q (hc ▸ hq)
    · rw [hc] at hq
      injection hq with hq
      exact hq ▸ hn
  · intro q hq
    rcases awardStep_streaker_cases acc p with hc | ⟨hc, hn⟩
    · exact h2 q (hc ▸ hq)
    · rw [hc] at hq
      injection hq with hq
      exact hq ▸ hn

/-- Folding the awards loop preserves the sentinel exclusion. -/
theorem awardFold_excludes_world (players : List Player) (acc : AwardAcc)
    (h : accExcludesWorld acc) :
    accExcludesWorld (players.foldl awardStep acc) := by
  induction players generalizing acc with
  | nil => exact h
  | cons p ps ih => exact ih _ (awardStep_excludes_world acc p h)

/-- The alert block never emits a Kick action. -/
theorem countKicks_alertBlock (p : Player) : countKicks (alertBlock p).2 = 0 := by
  unfold alertBlock
  split <;> simp [countKicks]

/-- The spectator block never emits a Kick action. -/
theorem countKicks_specBlock (p : Player) (nks counter now : Nat) :
    countKicks (specBlock p nks counter now).2 = 0 := by
  unfold specBlock
  split <;> [skip; simp [countKicks]]
  split <;> [simp [countKicks]; skip]
  split <;> simp [countKicks]

/-- Appending action lists adds their kick counts. -/
theorem countKicks_append (l1 l2 : List Action) :
    countKicks (l1 ++ l2) = countKicks l1 + countKicks l2 := by
  simp [countKicks, List.filter_append]

/-- Appending action lists adds their ForceTeam counts. -/
theorem countForce_append (l1 l2 : List Action) :
    countForce (l1 ++ l2) = countForce l1 + countForce l2 := by
  simp [countForce, List.filter_append]

/-- C1 (counterexample): the claim asserts that after the fifth unforgiven
team kill the killer's forgiveness list is empty.  It is not: `team_kill`
never clears `tk_victim_names`; at a concrete killer with four prior
offenses the fifth offense leaves a five-entry list. -/
theorem team_kill_fifth_keeps_list_counterexample :
    (Player.team_kill
        { basePlayer with player_num := 7, tk_victim_names := [2, 3, 4, 5] }
        { basePlayer with player_num := 6 }
        emptyDB 1000 true).1.tk_victim_names = [2, 3, 4, 5, 6] := by
  decide

/-- C1 (amended): when a killer below the Regular role with team-kill
autokick enabled and no currently-active ban points commits the fifth
unforgiven team kill, `team_kill` emits exactly one Kick action and inserts
exactly one ban point with a 900-second base duration; the forgiveness list
is NOT cleared: it now holds five entries. -/
theorem team_kill_fifth_offense (killer victim : Player) (db : DB) (now : Nat)
    (h1 : killer.admin_role < 2)
    (h2 : killer.tk_victim_names.length = 4)
    (h3 : Player.activePoints db killer.guid now = 0) :
    let r := Player.team_kill killer victim db now true
    countKicks r.2.2.2 = 1 ∧
    r.2.2.1.ban_points = db.ban_points ++ [⟨killer.guid, "tk, auto-kick", now + 900⟩] ∧
    r.2.2.1.ban_list = db.ban_list ∧
    r.1.tk_victim_names = killer.tk_victim_names ++ [victim.player_num] := by
  have hrole : (decide (killer.admin_role < 2) && true) = true := by
    simp [h1]
  have hlen : (killer.tk_victim_names ++ [victim.player_num]).length = 5 := by
    simp [h2]
  unfold Player.team_kill
  simp only [hrole, if_true]
  have hge : (killer.tk_victim_names ++ [victim.player_num]).length ≥ 5 := by
    omega
  simp only [hlen]
  unfold Player.add_ban_point
  have hactive : Player.activePoints
      { db with ban_points := db.ban_points ++ [⟨killer.guid, "tk, auto-kick", now + 900⟩] }
      killer.guid now = 1 := by
    unfold Player.activePoints at h3 ⊢
    simp [List.filter_append, h3, Player.pointActive]
  simp [hactive, countKicks]

/-- C1 (witness). -/
theorem team_kill_fifth_offense_witness :
    let killer : Player := { basePlayer with player_num := 7, tk_victim_names := [2, 3, 4, 5] }
    let victim : Player := { basePlayer with player_num := 6 }
    let r := Player.team_kill killer victim emptyDB 1000 true
    countKicks r.2.2.2 = 1 ∧
    r.2.2.1.ban_points = emptyDB.ban_points ++ [⟨killer.guid, "tk, auto-kick", 1000 + 900⟩] ∧
    r.2.2.1.ban_list = emptyDB.ban_list ∧
    r.1.tk_victim_names = killer.tk_victim_names ++ [victim.player_num] :=
  team_kill_fifth_offense
    { basePlayer with player_num := 7, tk_victim_names := [2, 3, 4, 5] }
    { basePlayer with player_num := 6 }
    emptyDB 1000 (by decide) (by decide) (by decide)

/-- C2: inserting a ban point of positive base duration `d` for an identity
that already has exactly one currently-active ban point always issues a ban
of duration `3 * d` (a `ban_list` row expiring at `now + d * 3`) with the
new point's type as the reason, and kicks the player. -/
theorem add_ban_point_second_active (p : Player) (db : DB) (now d : Nat)
    (ptype : String)
    (h1 : Player.activePoints db p.guid now = 1)
    (h2 : 0 < d) :
    let r := Player.add_ban_point p db now ptype d
    r.1.ban_list = db.ban_list ++
      [{ guid := p.guid, name := p.name, address := p.address,
         expires := now + d * 3, timestamp := now, reason := ptype }] ∧
    countKicks r.2 = 1 := by
  unfold Player.add_ban_point
  have hactive : Player.activePoints
      { db with ban_points := db.ban_points ++ [⟨p.guid, ptype, now + d⟩] }
      p.guid now = 2 := by
    unfold Player.activePoints at h1 ⊢
    simp [List.filter_append, h1, Player.pointActive, h2]
  simp [hactive, Player.ban, countKicks]

/-- C2 (witness). -/
theorem add_ban_point_second_active_witness :
    let db : DB := { ban_points := [⟨"GUID0", "tk", 500⟩], ban_list := [] }
    let r := Player.add_ban_point basePlayer db 100 "lang" 300
    r.1.ban_list = db.ban_list ++
      [{ guid := basePlayer.guid, name := basePlayer.name,
         address := basePlayer.address, expires := 100 + 300 * 3,
         timestamp := 100, reason := "lang" }] ∧
    countKicks r.2 = 1 :=
  add_ban_point_second_active basePlayer
    { ban_points := [⟨"GUID0", "tk", 500⟩], ban_list := [] }
    100 300 "lang" (by decide) (by decide)

/-- C7 (counterexample): the claim asserts that at a Warmup transition the
spectator-warning counter resets to zero.  `Player.reset` leaves it
untouched: a player with one spectator warning still has it afterwards. -/
theorem reset_keeps_spec_warning_counterexample :
    (Player.reset { basePlayer with spec_warn_count := 1 }).spec_warn_count = 1 := by
  decide

/-- C7 (amended): `Player.reset` (run for every player at a Warmup
transition) zeroes the round-scoped counters kills, deaths, current streak,
max streak, headshots, total hits, team-kill count, warning count and flag
counters and empties the forgiveness lists, but leaves the
spectator-warning and high-ping counters unchanged; every lifetime
(database-mirrored) counter is unchanged by the reset, and the event
mutators only ever increase the lifetime counters, so the lifetime counters
are monotonically non-decreasing across rounds. -/
theorem reset_round_counters (p : Player) :
    (p.reset.kills = 0 ∧ p.reset.deaths = 0 ∧ p.reset.killing_streak = 0 ∧
     p.reset.max_kill_streak = 0 ∧ p.reset.head_shots = 0 ∧
     p.reset.all_hits = 0 ∧ p.reset.tk_count = 0 ∧ p.reset.warn_counter = 0 ∧
     p.reset.flags_captured = 0 ∧ p.reset.flags_returned = 0 ∧
     p.reset.tk_victim_names = [] ∧ p.reset.tk_killer_names = []) ∧
    (p.reset.spec_warn_count = p.spec_warn_count ∧
     p.reset.high_ping_count = p.high_ping_count) ∧
    (p.reset.db_kills = p.db_kills ∧ p.reset.db_deaths = p.db_deaths ∧
     p.reset.db_head_shots = p.db_head_shots ∧
     p.reset.db_tk_count = p.db_tk_count ∧
     p.reset.db_team_death = p.db_team_death ∧
     p.reset.db_killing_streak = p.db_killing_streak ∧
     p.reset.db_suicide = p.db_suicide) ∧
    (p.db_kills ≤ p.kill.db_kills ∧ p.db_deaths ≤ p.die.db_deaths ∧
     p.db_killing_streak ≤ p.die.db_killing_streak ∧
     p.db_head_shots ≤ p.headshot.db_head_shots ∧
     p.db_suicide ≤ p.suicide.db_suicide ∧
     p.db_team_death ≤ p.team_death.db_team_death) := by
  refine ⟨?_, ?_, ?_, ?_, ?_, ?_, ?_, ?_, ?_⟩
  · simp [Player.reset]
  · simp [Player.reset]
  · simp [Player.reset]
  · simp [Player.kill]
  · unfold Player.die
    dsimp only
    omega
  · unfold Player.die
    dsimp only
    split <;> split <;> omega
  · simp [Player.headshot]
  · simp [Player.suicide]
  · simp [Player.team_death]

/-- C3: in the periodic warning sweep, a player with a generic-warning
count of exactly 3 and admin role below 40 always receives a Kick action,
while a player with count 3 and role at least 40 never receives any Kick
action from the sweep (whatever the other counters hold). -/
theorem sweep_warning_three (p : Player) (nks counter now : Nat)
    (h : p.warn_counter = 3) :
    (p.admin_role < 40 → Action.kick p.player_num ∈ (sweepPlayer p nks counter now).2) ∧
    (40 ≤ p.admin_role → countKicks (sweepPlayer p nks counter now).2 = 0) := by
  constructor
  · intro hr
    simp only [sweepPlayer]
    unfold kickBlock
    simp [h, hr]
  · intro hr
    have h1 : ¬ (p.admin_role < 40) := by omega
    have h2 : ¬ (p.admin_role < 20) := by omega
    simp only [sweepPlayer]
    rw [countKicks_append, countKicks_append, countKicks_alertBlock,
      countKicks_specBlock]
    unfold kickBlock
    simp [h1, h2, countKicks]

/-- C3 (witness). -/
theorem sweep_warning_three_witness :
    let p : Player := { basePlayer with warn_counter := 3 }
    (p.admin_role < 40 → Action.kick p.player_num ∈ (sweepPlayer p 0 5 100).2) ∧
    (40 ≤ p.admin_role → countKicks (sweepPlayer p 0 5 100).2 = 0) :=
  sweep_warning_three { basePlayer with warn_counter := 3 } 0 5 100 (by decide)

/-- C4: whenever the sweep sees a non-protected player (role below 40)
whose generic-warning count or spectator-warning count is exactly 2, the
alert block broadcasts the auto-kick alert and increments both counters,
regardless of which of the two reached 2; consequently the full sweep body
(with the spectator check disabled) leaves both counters incremented. -/
theorem alert_two_increments_both (p : Player)
    (h1 : p.admin_role < 40) (h2 : p.warn_counter = 2 ∨ p.spec_warn_count = 2) :
    (alertBlock p).1.warn_counter = p.warn_counter + 1 ∧
    (alertBlock p).1.spec_warn_count = p.spec_warn_count + 1 ∧
    (alertBlock p).2 =
      [Action.say ("ALERT: Player " ++ p.name ++ ", auto-kick from warnings if not cleared")] ∧
    ∀ counter now,
      (sweepPlayer p 0 counter now).1.warn_counter = p.warn_counter + 1 ∧
      (sweepPlayer p 0 counter now).1.spec_warn_count = p.spec_warn_count + 1 := by
  have hcond : ((p.warn_counter == 2 || p.spec_warn_count == 2) &&
      decide (p.admin_role < 40)) = true := by
    rcases h2 with h2 | h2 <;> simp [h2, h1]
  unfold sweepPlayer alertBlock specBlock
  simp [hcond, Player.add_warning, Player.add_spec_warning]

/-- C4 (witness): a player whose spectator counter (not the generic
counter) reached 2 still gets both counters incremented. -/
theorem alert_two_increments_both_witness :
    let p : Player := { basePlayer with spec_warn_count := 2 }
    (alertBlock p).1.warn_counter = p.warn_counter + 1 ∧
    (alertBlock p).1.spec_warn_count = p.spec_warn_count + 1 ∧
    (alertBlock p).2 =
      [Action.say ("ALERT: Player " ++ p.name ++ ", auto-kick from warnings if not cleared")] ∧
    ∀ counter now,
      (sweepPlayer p 0 counter now).1.warn_counter = p.warn_counter + 1 ∧
      (sweepPlayer p 0 counter now).1.spec_warn_count = p.spec_warn_count + 1 :=
  alert_two_increments_both { basePlayer with spec_warn_count := 2 }
    (by decide) (Or.inr (by decide))

/-- C8 (counterexample): the claim asserts World (slot 1022) is never
announced as the winner of any of the four awards.  The source excludes
slot 1022 only from the kills and streak awards: two flag-capture events
credited to slot 1022 make World the announced flag-capture winner. -/
theorem world_wins_flags_counterexample :
    (handle_awards [Player.capture_flag (Player.capture_flag worldPlayer)]).1.flagrunner
      = some (Player.capture_flag (Player.capture_flag worldPlayer)) ∧
    (handle_awards [Player.capture_flag (Player.capture_flag worldPlayer)]).2
      = [Action.say "AWARDS: World: 2 caps"] := by
  decide

/-- C8 (amended): in the end-of-round awards, the sentinel slot 1022 is
never selected as the most-kills or longest-streak winner, for any player
list; the most-flag-captures and most-headshots awards carry no sentinel
exclusion. -/
theorem handle_awards_excludes_world (players : List Player) :
    (∀ q, (handle_awards players).1.serialkiller = some q → q.player_num ≠ 1022) ∧
    (∀ q, (handle_awards players).1.streaker = some q → q.player_num ≠ 1022) := by
  have h0 : accExcludesWorld initAcc := by
    constructor <;> intro q hq <;> simp [initAcc] at hq
  have h := awardFold_excludes_world players initAcc h0
  obtain ⟨h1, h2⟩ := h
  exact ⟨fun q hq => h1 q (by simpa [handle_awards] using hq),
         fun q hq => h2 q (by simpa [handle_awards] using hq)⟩

/-- C8 (witness). -/
theorem handle_awards_excludes_world_witness :
    ({ basePlayer with player_num := 5, kills := 3, max_kill_streak := 2 } : Player).player_num ≠ 1022 :=
  (handle_awards_excludes_world
      [{ basePlayer with player_num := 5, kills := 3, max_kill_streak := 2 }]).1
    { basePlayer with player_num := 5, kills := 3, max_kill_streak := 2 }
    (by decide)

/-- The moved set has exactly `floor(surplus / 2)` players. -/
theorem balanceMoved_length (players : List Player) (t1 t2 : Nat) :
    (balanceMoved players t1 t2).length =
      (teamCount players t1 - teamCount players t2) / 2 := by
  unfold balanceMoved sortedTeam
  rw [List.length_take, List.length_insertionSort]
  have h1 : (teamCount players t1 - teamCount players t2) / 2 ≤ teamCount players t1 :=
    le_trans (Nat.div_le_self _ _) (Nat.sub_le _ _)
  unfold teamCount at h1 ⊢
  omega

/-- Every moved player joined no earlier than every unmoved player of the
larger team. -/
theorem balanceMoved_most_recent (players : List Player) (t1 t2 : Nat) :
    ∀ m ∈ balanceMoved players t1 t2,
      ∀ q ∈ players.filter fun p => p.team == t1,
        q ∉ balanceMoved players t1 t2 → q.time_joined ≤ m.time_joined := by
  intro m hm q hq hq2
  have hs : List.Sorted laterJoined (sortedTeam players t1) :=
    List.sorted_insertionSort _ _
  have hperm := List.perm_insertionSort laterJoined
    (players.filter fun p => p.team == t1)
  have hqs : q ∈ sortedTeam players t1 := hperm.mem_iff.mpr hq
  set n := (teamCount players t1 - teamCount players t2) / 2 with hn
  have hqdrop : q ∈ (sortedTeam players t1).drop n := by
    rcases (List.mem_append.mp
      (by rw [List.take_append_drop] ; exact hqs :
        q ∈ (sortedTeam players t1).take n ++ (sortedTeam players t1).drop n)) with h | h
    · exact absurd h hq2
    · exact h
  exact List.Pairwise.rel_of_mem_take_of_mem_drop (R := laterJoined) hs hm hqdrop

/-- Mapping players to ForceTeam actions yields one ForceTeam each. -/
theorem countForce_map_forceteam (l : List Player) (team : String) :
    countForce (l.map fun p => Action.forceteam p.player_num team) = l.length := by
  induction l with
  | nil => rfl
  | cons a l ih =>
    simp only [List.map_cons, countForce, List.filter_cons] at ih ⊢
    simp [ih]

/-- C6: whenever team balancing runs with the playing teams differing by
more than 1, it emits exactly `floor(surplus / 2)` ForceTeam actions, all
towards the smaller team, and the moved players are chosen
most-recently-joined first; with an imbalance of at most 1 nothing is
moved. -/
theorem balance_teams_correct (players : List Player) :
    (teamCount players 1 > teamCount players 2 + 1 →
      countForce (balance_teams players) =
        (teamCount players 1 - teamCount players 2) / 2 ∧
      ∀ n t, Action.forceteam n t ∈ balance_teams players → t = "blue") ∧
    (teamCount players 2 > teamCount players 1 + 1 →
      countForce (balance_teams players) =
        (teamCount players 2 - teamCount players 1) / 2 ∧
      ∀ n t, Action.forceteam n t ∈ balance_teams players → t = "red") ∧
    (teamCount players 1 ≤ teamCount players 2 + 1 →
      teamCount players 2 ≤ teamCount players 1 + 1 →
      countForce (balance_teams players) = 0) ∧
    (∀ m ∈ balanceMoved players 1 2,
      ∀ q ∈ players.filter fun p => p.team == 1,
        q ∉ balanceMoved players 1 2 → q.time_joined ≤ m.time_joined) ∧
    (∀ m ∈ balanceMoved players 2 1,
      ∀ q ∈ players.filter fun p => p.team == 2,
        q ∉ balanceMoved players 2 1 → q.time_joined ≤ m.time_joined) := by
  refine ⟨?_, ?_, ?_, balanceMoved_most_recent players 1 2,
    balanceMoved_most_recent players 2 1⟩
  · intro h
    have hc : teamCount players 1 - teamCount players 2 > 1 := by omega
    unfold balance_teams
    rw [if_pos hc]
    constructor
    · rw [countForce_append, countForce_append, countForce_map_forceteam,
        balanceMoved_length]
      simp [countForce]
    · intro n t ht
      simp only [List.mem_append, List.mem_map, List.mem_singleton] at ht
      rcases ht with (ht | ⟨p, _, hp⟩) | ht
      · simp at ht
      · simp only [Action.forceteam.injEq] at hp
        exact hp.2.symm
      · simp at ht
  · intro h
    have hc1 : ¬ (teamCount players 1 - teamCount players 2 > 1) := by omega
    have hc : teamCount players 2 - teamCount players 1 > 1 := by omega
    unfold balance_teams
    rw [if_neg hc1, if_pos hc]
    constructor
    · rw [countForce_append, countForce_append, countForce_map_forceteam,
        balanceMoved_length]
      simp [countForce]
    · intro n t ht
      simp only [List.mem_append, List.mem_map, List.mem_singleton] at ht
      rcases ht with (ht | ⟨p, _, hp⟩) | ht
      · simp at ht
      · simp only [Action.forceteam.injEq] at hp
        exact hp.2.symm
      · simp at ht
  · intro h1 h2
    have hc1 : ¬ (teamCount players 1 - teamCount players 2 > 1) := by omega
    have hc2 : ¬ (teamCount players 2 - teamCount players 1 > 1) := by omega
    unfold balance_teams
    rw [if_neg hc1, if_neg hc2]
    simp [countForce]

/-- C6 (witness): with red 5 vs blue 2 exactly one player is moved and the
moved player is the most recently joined red player; with red 3 vs blue 2
nothing is moved. -/
theorem balance_teams_correct_witness :
    countForce (balance_teams
      [{ basePlayer with player_num := 1, team := 1, time_joined := 10 },
       { basePlayer with player_num := 2, team := 1, time_joined := 20 },
       { basePlayer with player_num := 3, team := 1, time_joined := 30 },
       { basePlayer with player_num := 4, team := 1, time_joined := 40 },
       { basePlayer with player_num := 5, team := 1, time_joined := 50 },
       { basePlayer with player_num := 6, team := 2, time_joined := 6 },
       { basePlayer with player_num := 7, team := 2, time_joined := 7 }]) = 1 ∧
    balanceMoved
      [{ basePlayer with player_num := 1, team := 1, time_joined := 10 },
       { basePlayer with player_num := 2, team := 1, time_joined := 20 },
       { basePlayer with player_num := 3, team := 1, time_joined := 30 },
       { basePlayer with player_num := 4, team := 1, time_joined := 40 },
       { basePlayer with player_num := 5, team := 1, time_joined := 50 },
       { basePlayer with player_num := 6, team := 2, time_joined := 6 },
       { basePlayer with player_num := 7, team := 2, time_joined := 7 }] 1 2 =
      [{ basePlayer with player_num := 5, team := 1, time_joined := 50 }] ∧
    countForce (balance_teams
      [{ basePlayer with player_num := 1, team := 1, time_joined := 10 },
       { basePlayer with player_num := 2, team := 1, time_joined := 20 },
       { basePlayer with player_num := 3, team := 1, time_joined := 30 },
       { basePlayer with player_num := 6, team := 2, time_joined := 6 },
       { basePlayer with player_num := 7, team := 2, time_joined := 7 }]) = 0 :=
  ⟨((balance_teams_correct
      [{ basePlayer with player_num := 1, team := 1, time_joined := 10 },
       { basePlayer with player_num := 2, team := 1, time_joined := 20 },
       { basePlayer with player_num := 3, team := 1, time_joined := 30 },
       { basePlayer with player_num := 4, team := 1, time_joined := 40 },
       { basePlayer with player_num := 5, team := 1, time_joined := 50 },
       { basePlayer with player_num := 6, team := 2, time_joined := 6 },
       { basePlayer with player_num := 7, team := 2, time_joined := 7 }]).1
      (by decide)).1,
   by decide,
   (balance_teams_correct
      [{ basePlayer with player_num := 1, team := 1, time_joined := 10 },
       { basePlayer with player_num := 2, team := 1, time_joined := 20 },
       { basePlayer with player_num := 3, team := 1, time_joined := 30 },
       { basePlayer with player_num := 6, team := 2, time_joined := 6 },
       { basePlayer with player_num := 7, team := 2, time_joined := 7 }]).2.2.1
      (by decide) (by decide)⟩

/-- The team-kill counters of a slot, `none` for unoccupied slots. -/
def tkOf (o : Option Player) : Option (Nat × Nat) :=
  o.map fun p => (p.tk_count, p.db_tk_count)

/-- Characterisation of lookups after an in-place update. -/
theorem findPlayer_applyAt (m : PMap) (i j : Nat) (f : Player → Player) :
    findPlayer (applyAt m i f) j =
      if j = i then (findPlayer m j).map f else findPlayer m j := by
  have hpred : (fun e : Nat × Player =>
      (if e.1 == i then (e.1, f e.2) else e).1 == j) = fun e => e.1 == j := by
    funext e
    split <;> rfl
  unfold findPlayer applyAt
  rw [List.find?_map, Function.comp_def]
  simp only [hpred]
  cases hfind : List.find? (fun e : Nat × Player => e.1 == j) m with
  | none => split <;> rfl
  | some e =>
    have he : e.1 = j := by
      have := List.find?_some hfind
      simpa using this
    by_cases hij : j = i
    · subst hij
      simp [he]
    · simp [he, hij]

/-- In-place updates that do not touch the team-kill counters preserve
`tkOf` at every slot. -/
theorem tkOf_applyAt (m : PMap) (i j : Nat) (f : Player → Player)
    (hf : ∀ p, (f p).tk_count = p.tk_count ∧ (f p).db_tk_count = p.db_tk_count) :
    tkOf (findPlayer (applyAt m i f) j) = tkOf (findPlayer m j) := by
  rw [findPlayer_applyAt]
  split
  · cases findPlayer m j with
    | none => rfl
    | some p => simp [tkOf, (hf p).1, (hf p).2]
  · rfl

/-- `Player.suicide` does not touch the team-kill counters. -/
theorem suicide_tk (p : Player) :
    (p.suicide).tk_count = p.tk_count ∧ (p.suicide).db_tk_count = p.db_tk_count := by
  simp [Player.suicide]

/-- `Player.die` does not touch the team-kill counters. -/
theorem die_tk (p : Player) :
    (p.die).tk_count = p.tk_count ∧ (p.die).db_tk_count = p.db_tk_count := by
  simp [Player.die]

/-- `Player.kill` does not touch the team-kill counters. -/
theorem kill_tk (p : Player) :
    (p.kill).tk_count = p.tk_count ∧ (p.kill).db_tk_count = p.db_tk_count := by
  simp [Player.kill]

/-- C5: under an FFA/LMS/Jump classification, or when the death cause
decodes to UT_MOD_BOMBED, a processed Kill event changes no ban points (the
database is untouched) and no player's round or lifetime team-kill counter,
regardless of teams and slots. -/
theorem handle_kill_no_tk_accounting (st : KillCtx) (m : PMap) (db : DB)
    (now killer_id victim_id cause_code : Nat) (nonClient : Bool)
    (h : st.ffa_lms_gametype = true ∨
         deathCauseTable st.urt42_modversion cause_code = some "UT_MOD_BOMBED") :
    ∀ r, handle_kill st m db now killer_id victim_id cause_code nonClient = some r →
      r.2.1 = db ∧ ∀ j, tkOf (findPlayer r.1 j) = tkOf (findPlayer m j) := by
  intro r hr
  unfold handle_kill at hr
  cases hdc : deathCauseTable st.urt42_modversion cause_code with
  | none => rw [hdc] at hr; exact absurd hr (by simp)
  | some dc =>
    simp only [hdc] at hr
    cases hv : findPlayer m victim_id with
    | none => rw [hv] at hr; exact absurd hr (by simp)
    | some victim =>
      simp only [hv] at hr
      cases hk : findPlayer m (kidSlot nonClient killer_id) with
      | none => rw [hk] at hr; exact absurd hr (by simp)
      | some killer =>
        simp only [hk] at hr
        have hguard : (!st.ffa_lms_gametype &&
            (victim.team == killer.team &&
              victim_id != kidSlot nonClient killer_id) &&
            dc != "UT_MOD_BOMBED") = false := by
          rcases h with h | h
          · simp [h]
          · rw [hdc] at h
            injection h with h
            subst h
            simp
        simp only [hguard, Bool.false_eq_true, if_false] at hr
        split at hr
        · rw [Option.some_inj] at hr
          subst hr
          refine ⟨rfl, fun j => ?_⟩
          rw [tkOf_applyAt _ _ _ _ die_tk, tkOf_applyAt _ _ _ _ suicide_tk]
        · split at hr
          · rw [Option.some_inj] at hr
            subst hr
            refine ⟨rfl, fun j => ?_⟩
            rw [tkOf_applyAt _ _ _ _ die_tk, tkOf_applyAt _ _ _ _ kill_tk]
          · rw [Option.some_inj] at hr
            subst hr
            exact ⟨rfl, fun j => rfl⟩

/-- C5 (witness): a same-team non-self knife kill in an FFA match leaves
the database and the killer's team-kill counters untouched. -/
theorem handle_kill_no_tk_accounting_witness :
    (((handle_kill ⟨true, true, true⟩
        [(1, { basePlayer with player_num := 1, team := 1 }),
         (2, { basePlayer with player_num := 2, team := 1 })]
        emptyDB 50 1 2 12 false).getD ([], emptyDB, [])).2.1 = emptyDB) ∧
    tkOf (findPlayer
      ((handle_kill ⟨true, true, true⟩
        [(1, { basePlayer with player_num := 1, team := 1 }),
         (2, { basePlayer with player_num := 2, team := 1 })]
        emptyDB 50 1 2 12 false).getD ([], emptyDB, [])).1 1) =
    tkOf (findPlayer
      [(1, { basePlayer with player_num := 1, team := 1 }),
       (2, { basePlayer with player_num := 2, team := 1 })] 1) :=
  (fun h => ⟨h.1, h.2 1⟩)
    (handle_kill_no_tk_accounting ⟨true, true, true⟩
      [(1, { basePlayer with player_num := 1, team := 1 }),
       (2, { basePlayer with player_num := 2, team := 1 })]
      emptyDB 50 1 2 12 false (Or.inl rfl)
      ((handle_kill ⟨true, true, true⟩
        [(1, { basePlayer with player_num := 1, team := 1 }),
         (2, { basePlayer with player_num := 2, team := 1 })]
        emptyDB 50 1 2 12 false).getD ([], emptyDB, []))
      (by decide))

/-- `team_kill` increments the killer's round and lifetime team-kill
counters in every branch. -/
theorem team_kill_tk_counts (k v : Player) (d : DB) (t : Nat) (ak : Bool) :
    (Player.team_kill k v d t ak).1.tk_count = k.tk_count + 1 ∧
    (Player.team_kill k v d t ak).1.db_tk_count = k.db_tk_count + 1 := by
  refine ⟨?_, ?_⟩ <;>
    (unfold Player.team_kill
     dsimp only
     split <;> (try split) <;> (try split) <;> (try split) <;> (try split) <;> rfl)

/-- For killers at or above the Regular role, or with autokick disabled,
`team_kill` only bumps the counters: no list append, no action, no
database change. -/
theorem team_kill_protected (k v : Player) (d : DB) (t : Nat) (ak : Bool)
    (h : ¬(k.admin_role < 2 ∧ ak = true)) :
    Player.team_kill k v d t ak =
      ({ k with tk_count := k.tk_count + 1, db_tk_count := k.db_tk_count + 1 },
       v, d, []) := by
  have hc : (decide (k.admin_role < 2) && ak) = false := by
    by_cases hr : k.admin_role < 2
    · have hak : ak = false := by
        cases ak with
        | false => rfl
        | true => exact absurd ⟨hr, rfl⟩ h
      simp [hak]
    · simp [hr]
  unfold Player.team_kill
  dsimp only
  rw [hc]
  rfl

/-- For punishable killers, `team_kill` appends the offense to both
forgiveness lists. -/
theorem team_kill_lists (k v : Player) (d : DB) (t : Nat)
    (h : k.admin_role < 2) :
    (Player.team_kill k v d t true).1.tk_victim_names =
      k.tk_victim_names ++ [v.player_num] ∧
    (Player.team_kill k v d t true).2.1.tk_killer_names =
      v.tk_killer_names ++ [k.player_num] := by
  have hc : (decide (k.admin_role < 2) && true) = true := by simp [h]
  refine ⟨?_, ?_⟩ <;>
    (unfold Player.team_kill
     dsimp only
     rw [hc]
     split <;> (try split) <;> (try split) <;> (try split) <;> (try split) <;>
       first | rfl | simp_all)

/-- C10: a same-team non-self kill in a non-FFA/LMS/Jump match with a
cause other than UT_MOD_BOMBED always increments the killer's round and
lifetime team-kill counters; the punishment pipeline is gated on the killer
being below the Regular role with autokick enabled — any other killer gets
no action (no warning, no kick) and no database change from the team kill,
and the forgiveness-list appends happen exactly in the punishable case. -/
theorem handle_kill_team_kill_accounting (st : KillCtx) (m : PMap) (db : DB)
    (now killer_id victim_id cause_code : Nat) (killer victim : Player)
    (dc : String)
    (h0 : st.ffa_lms_gametype = false)
    (h1 : deathCauseTable st.urt42_modversion cause_code = some dc)
    (h2 : dc ≠ "UT_MOD_BOMBED")
    (h3 : findPlayer m victim_id = some victim)
    (h4 : findPlayer m killer_id = some killer)
    (h5 : victim.team = killer.team)
    (h6 : victim_id ≠ killer_id) :
    (∀ r, handle_kill st m db now killer_id victim_id cause_code false = some r →
      tkOf (findPlayer r.1 killer_id) =
        some (killer.tk_count + 1, killer.db_tk_count + 1) ∧
      (¬(killer.admin_role < 2 ∧ st.tk_autokick = true) →
        r.2.1 = db ∧ r.2.2 = [])) ∧
    (∀ (k v : Player) (d : DB) (t : Nat) (ak : Bool),
      ¬(k.admin_role < 2 ∧ ak = true) →
      Player.team_kill k v d t ak =
        ({ k with tk_count := k.tk_count + 1, db_tk_count := k.db_tk_count + 1 },
         v, d, [])) ∧
    (∀ (k v : Player) (d : DB) (t : Nat), k.admin_role < 2 →
      (Player.team_kill k v d t true).1.tk_victim_names =
        k.tk_victim_names ++ [v.player_num] ∧
      (Player.team_kill k v d t true).2.1.tk_killer_names =
        v.tk_killer_names ++ [k.player_num]) := by
  refine ⟨?_, fun k v d t ak h => team_kill_protected k v d t ak h,
    fun k v d t h => team_kill_lists k v d t h⟩
  intro r hr
  have hkid : kidSlot false killer_id = killer_id := rfl
  unfold handle_kill at hr
  simp only [h1, h3, hkid, h4] at hr
  have hguard : (!st.ffa_lms_gametype &&
      (victim.team == killer.team && victim_id != killer_id) &&
      dc != "UT_MOD_BOMBED") = true := by
    simp [h0, h5, h6, h2]
  simp only [hguard, if_true] at hr
  have hm1k : findPlayer
      (applyAt (applyAt m killer_id
        (fun _ => (Player.team_kill killer victim db now st.tk_autokick).1))
        victim_id
        (fun _ => Player.team_death
          (Player.team_kill killer victim db now st.tk_autokick).2.1))
      killer_id =
      some (Player.team_kill killer victim db now st.tk_autokick).1 := by
    rw [findPlayer_applyAt, if_neg (Ne.symm h6), findPlayer_applyAt, if_pos rfl,
      h4]
    rfl
  have htkc := team_kill_tk_counts killer victim db now st.tk_autokick
  split at hr
  · rw [Option.some_inj] at hr
    subst hr
    constructor
    · rw [tkOf_applyAt _ _ _ _ die_tk, tkOf_applyAt _ _ _ _ suicide_tk, hm1k]
      simp [tkOf, htkc.1, htkc.2]
    · intro hprot
      rw [team_kill_protected killer victim db now st.tk_autokick hprot]
      exact ⟨rfl, rfl⟩
  · split at hr
    · rename_i hcond
      simp at hcond
    · rw [Option.some_inj] at hr
      subst hr
      constructor
      · rw [hm1k]
        simp [tkOf, htkc.1, htkc.2]
      · intro hprot
        rw [team_kill_protected killer victim db now st.tk_autokick hprot]
        exact ⟨rfl, rfl⟩

/-- C10 (witness): an Admin-role killer (role 40) commits a same-team
knife kill; the team-kill counters are incremented but no action is emitted
and the database is unchanged. -/
theorem handle_kill_team_kill_accounting_witness :
    tkOf (findPlayer
      ((handle_kill ⟨false, true, true⟩
        [(1, { basePlayer with player_num := 1, team := 1, admin_role := 40 }),
         (2, { basePlayer with player_num := 2, team := 1 })]
        emptyDB 50 1 2 12 false).getD ([], emptyDB, [])).1 1) = some (0 + 1, 0 + 1) ∧
    (((handle_kill ⟨false, true, true⟩
        [(1, { basePlayer with player_num := 1, team := 1, admin_role := 40 }),
         (2, { basePlayer with player_num := 2, team := 1 })]
        emptyDB 50 1 2 12 false).getD ([], emptyDB, [])).2.1 = emptyDB ∧
     ((handle_kill ⟨false, true, true⟩
        [(1, { basePlayer with player_num := 1, team := 1, admin_role := 40 }),
         (2, { basePlayer with player_num := 2, team := 1 })]
        emptyDB 50 1 2 12 false).getD ([], emptyDB, [])).2.2 = []) :=
  (fun H => ⟨(H.1 _ (by decide)).1, (H.1 _ (by decide)).2 (by decide)⟩)
    (handle_kill_team_kill_accounting ⟨false, true, true⟩
      [(1, { basePlayer with player_num := 1, team := 1, admin_role := 40 }),
       (2, { basePlayer with player_num := 2, team := 1 })]
      emptyDB 50 1 2 12
      { basePlayer with player_num := 1, team := 1, admin_role := 40 }
      { basePlayer with player_num := 2, team := 1 }
      "UT_MOD_KNIFE" rfl rfl (by decide) (by decide) (by decide) rfl
      (by decide))

/-- Splitting off the first line commutes with appending when the first
part contains a newline. -/
theorem splitFirstLine_append_left (a b : List Char) (h : '\n' ∈ a) :
    splitFirstLine (a ++ b) =
      ((splitFirstLine a).1, (splitFirstLine a).2 ++ b) := by
  induction a with
  | nil => simp at h
  | cons c cs ih =>
    by_cases hc : c = '\n'
    · subst hc
      simp [splitFirstLine]
    · have h' : '\n' ∈ cs := by
        rcases List.mem_cons.mp h with h0 | h0
        · exact absurd h0.symm hc
        · exact h0
      simp [splitFirstLine, hc, ih h']

/-- A newline-terminated chunk with no interior newline is one line. -/
theorem splitFirstLine_single (s : List Char) (h : ¬ '\n' ∈ s) :
    splitFirstLine (s ++ ['\n']) = (s ++ ['\n'], []) := by
  induction s with
  | nil => simp [splitFirstLine]
  | cons c cs ih =>
    have hc : ¬ c = '\n' := fun hh => h (hh ▸ List.mem_cons_self c cs)
    have h' : ¬ '\n' ∈ cs := fun hh => h (List.mem_cons_of_mem _ hh)
    simp [splitFirstLine, hc, ih h']

/-- Unfolding equation of `linesOf` on a non-empty stream. -/
theorem linesOf_eq (l : List Char) (h : l ≠ []) :
    linesOf l = (splitFirstLine l).1 :: linesOf (splitFirstLine l).2 := by
  rw [linesOf]
  simp [h]

/-- Unfolding equation of `innerScan` without the termination artifacts. -/
theorem innerScan_eq (f : List Char) (pos e : Nat) (st : ScanState)
    (found : Bool) :
    innerScan f pos e st found =
      (let line := (splitFirstLine (f.drop pos)).1
       let st' := if isInitGameLine line then classifyInit st line else st
       let found' := found || isInitGameLine line
       let newPos := pos + line.length
       if newPos > e then (st', found', newPos)
       else if line.length = 0 then (st', found', newPos)
       else innerScan f newPos e st' found') := by
  rw [innerScan]
  by_cases h1 : pos + (splitFirstLine (f.drop pos)).1.length > e
  · simp [h1]
  · by_cases h0 : (splitFirstLine (f.drop pos)).1.length = 0
    · simp [h1, h0]
    · simp [h1, h0]

/-- Line decomposition of an append whose first part is newline
terminated. -/
theorem linesOf_append (b : List Char) :
    ∀ n (a : List Char), a.length = n → a.getLast? = some '\n' →
      linesOf (a ++ b) = linesOf a ++ linesOf b := by
  intro n
  induction n using Nat.strong_induction_on with
  | _ n ih =>
    intro a hlen h
    have ha : a ≠ [] := by
      intro h'
      subst h'
      simp at h
    have hmem : '\n' ∈ a := List.mem_of_getLast?_eq_some h
    have hab : a ++ b ≠ [] := by
      intro h'
      exact ha (List.append_eq_nil.mp h').1
    rw [linesOf_eq _ hab, splitFirstLine_append_left a b hmem]
    dsimp only
    rw [linesOf_eq _ ha]
    have hsplit := splitFirstLine_append a
    by_cases hsnd : (splitFirstLine a).2 = []
    · rw [hsnd]
      have h0 : linesOf ([] : List Char) = [] := by
        rw [linesOf]
        simp
      simp [h0]
    · have h2 : ((splitFirstLine a).1 ++ (splitFirstLine a).2).getLast? =
          (splitFirstLine a).2.getLast? :=
        List.getLast?_append_of_ne_nil _ hsnd
      rw [hsplit] at h2
      have hlast : (splitFirstLine a).2.getLast? = some '\n' := h2.symm.trans h
      have hlt : (splitFirstLine a).2.length < n := by
        have h1 : (splitFirstLine a).1 ≠ [] := by
          cases a with
          | nil => exact absurd rfl ha
          | cons c cs => exact splitFirstLine_fst_ne c cs
        have h3 := congrArg List.length hsplit
        simp only [List.length_append] at h3
        have h4 : (splitFirstLine a).1.length ≠ 0 :=
          fun hh => h1 (List.length_eq_zero.mp hh)
        omega
      rw [ih _ hlt _ rfl hlast]
      simp

/-- Folding the classifier over lines that contain no InitGame marker
leaves the state unchanged. -/
theorem foldClassify_no_init (lines : List (List Char)) (st : ScanState)
    (h : ∀ ln ∈ lines, isInitGameLine ln = false) :
    lines.foldl
      (fun s line => if isInitGameLine line then classifyInit s line else s)
      st = st := by
  induction lines generalizing st with
  | nil => rfl
  | cons l ls ih =>
    have hl := h l (List.mem_cons_self l ls)
    simp only [List.foldl_cons, hl, Bool.false_eq_true, if_false]
    exact ih st fun ln hln => h ln (List.mem_cons_of_mem _ hln)

/-- An inner pass over a region without InitGame markers neither changes
the state nor sets the found flag. -/
theorem innerScan_no_init (f : List Char) :
    ∀ n (pos e : Nat) (st : ScanState) (found : Bool),
      f.length - pos = n →
      (∀ ln ∈ linesOf (f.drop pos), isInitGameLine ln = false) →
      (innerScan f pos e st found).1 = st ∧
      (innerScan f pos e st found).2.1 = found := by
  intro n
  induction n using Nat.strong_induction_on with
  | _ n ih =>
    intro pos e st found hn h
    rw [innerScan_eq]
    by_cases hne : f.drop pos = []
    · have hline : (splitFirstLine (f.drop pos)).1 = [] := by
        rw [hne]; rfl
      simp only [hline]
      have hinit : isInitGameLine [] = false := rfl
      simp only [hinit, Bool.false_eq_true, if_false, Bool.or_false,
        List.length_nil, Nat.add_zero]
      split
      · exact ⟨rfl, rfl⟩
      · simp
    · have hlmem : (splitFirstLine (f.drop pos)).1 ∈ linesOf (f.drop pos) := by
        rw [linesOf_eq _ hne]
        exact List.mem_cons_self _ _
      have hinit := h _ hlmem
      simp only [hinit, Bool.false_eq_true, if_false, Bool.or_false]
      split
      · exact ⟨rfl, rfl⟩
      · split
        · exact ⟨rfl, rfl⟩
        · rename_i h0
          have hlen1 : (splitFirstLine (f.drop pos)).1.length ≤ f.length - pos := by
            have := splitFirstLine_fst_length_le (f.drop pos)
            simpa using this
          have hpos : pos < f.length := by
            by_contra hge
            push_neg at hge
            rw [List.drop_eq_nil_of_le hge] at hne
            exact hne rfl
          have hlt : f.length - (pos + (splitFirstLine (f.drop pos)).1.length) < n := by
            omega
          have hdrop2 : f.drop (pos + (splitFirstLine (f.drop pos)).1.length) =
              (splitFirstLine (f.drop pos)).2 := by
            rw [← List.drop_drop]
            exact drop_splitFirst (f.drop pos)
          have h2 : ∀ ln ∈ linesOf (f.drop (pos + (splitFirstLine (f.drop pos)).1.length)),
              isInitGameLine ln = false := by
            rw [hdrop2]
            intro ln hln
            apply h
            rw [linesOf_eq _ hne]
            exact List.mem_cons_of_mem _ hln
          exact ih _ hlt _ e st found rfl h2

/-- An inner pass whose region starts with a well-formed InitGame line
followed only by non-marker data classifies exactly that line and reports
the marker as found, whatever the window end. -/
theorem innerScan_marker (f : List Char) (pos e : Nat) (st : ScanState)
    (found : Bool) (mb post : List Char)
    (hdrop : f.drop pos = (mb ++ ['\n']) ++ post)
    (hm : ¬ '\n' ∈ mb)
    (hminit : isInitGameLine (mb ++ ['\n']) = true)
    (hpost : ∀ ln ∈ linesOf post, isInitGameLine ln = false) :
    (innerScan f pos e st found).1 = classifyInit st (mb ++ ['\n']) ∧
    (innerScan f pos e st found).2.1 = true := by
  rw [innerScan_eq]
  have hsp : splitFirstLine (f.drop pos) = (mb ++ ['\n'], post) := by
    rw [hdrop, splitFirstLine_append_left _ _ (by simp),
      splitFirstLine_single mb hm]
    rfl
  simp only [hsp, hminit, if_true, Bool.or_true]
  split
  · exact ⟨rfl, rfl⟩
  · split
    · exact ⟨rfl, rfl⟩
    · have hdrop2 : f.drop (pos + (mb ++ ['\n'], post).1.length) = post := by
        rw [← List.drop_drop, hdrop]
        exact List.drop_left _ _
      exact innerScan_no_init f _ _ e _ true rfl
        (by rw [hdrop2]; exact hpost)

/-- Unfolding step of the outer window loop. -/
theorem outerScan_succ (f : List Char) (fuel cursor sp ep : Nat)
    (st : ScanState) :
    outerScan f (fuel + 1) cursor sp ep st =
      (let r := innerScan f cursor ep st false
       if r.2.1 then some r.1
       else if r.2.2 < 768 then outerScan f fuel 0 sp ep r.1
       else outerScan f fuel (sp - 768) (sp - 768) sp r.1) := rfl

/-- One newline-terminated chunk with no interior newline is one line. -/
theorem linesOf_single (mb : List Char) (hm : ¬ '\n' ∈ mb) :
    linesOf (mb ++ ['\n']) = [mb ++ ['\n']] := by
  rw [linesOf_eq _ (by simp), splitFirstLine_single mb hm]
  have h0 : linesOf ([] : List Char) = [] := by
    rw [linesOf]
    simp
  rw [h0]

/-- C9: when the most recent (and only) InitGame marker starts exactly at
the boundary of the backward scan window — at byte `length - 768` — the
startup recovery finds it and produces exactly the classification that a
forward scan from the start of the file yields: the classification of that
marker line. -/
theorem find_game_start_boundary (pre mb post : List Char) (st : ScanState)
    (hm : ¬ '\n' ∈ mb)
    (hminit : isInitGameLine (mb ++ ['\n']) = true)
    (hlen : mb.length + 1 + post.length = 768)
    (hpre : pre.getLast? = some '\n' ∨ pre = [])
    (hpreN : ∀ ln ∈ linesOf pre, isInitGameLine ln = false)
    (hpost : ∀ ln ∈ linesOf post, isInitGameLine ln = false) :
    find_game_start (pre ++ ((mb ++ ['\n']) ++ post)) st =
      some (classifyInit st (mb ++ ['\n'])) ∧
    forwardScan (pre ++ ((mb ++ ['\n']) ++ post)) st =
      classifyInit st (mb ++ ['\n']) := by
  have hflen : (pre ++ ((mb ++ ['\n']) ++ post)).length = pre.length + 768 := by
    simp only [List.length_append, List.length_cons, List.length_nil]
    omega
  have hdrop : (pre ++ ((mb ++ ['\n']) ++ post)).drop
      ((pre ++ ((mb ++ ['\n']) ++ post)).length - 768) = (mb ++ ['\n']) ++ post := by
    have h1 : (pre ++ ((mb ++ ['\n']) ++ post)).length - 768 = pre.length := by
      omega
    rw [h1]
    exact List.drop_left _ _
  constructor
  · unfold find_game_start
    rw [show (pre ++ ((mb ++ ['\n']) ++ post)).length / 768 + 2 =
        ((pre ++ ((mb ++ ['\n']) ++ post)).length / 768 + 1) + 1 from rfl,
      outerScan_succ]
    obtain ⟨h1, h2⟩ := innerScan_marker (pre ++ ((mb ++ ['\n']) ++ post))
      ((pre ++ ((mb ++ ['\n']) ++ post)).length - 768)
      (pre ++ ((mb ++ ['\n']) ++ post)).length st false mb post hdrop hm hminit
      hpost
    dsimp only
    rw [h2, if_pos rfl, h1]
  · unfold forwardScan
    have hlines : linesOf (pre ++ ((mb ++ ['\n']) ++ post)) =
        linesOf pre ++ ([mb ++ ['\n']] ++ linesOf post) := by
      have hmid : linesOf ((mb ++ ['\n']) ++ post) =
          [mb ++ ['\n']] ++ linesOf post := by
        rw [linesOf_append post (mb ++ ['\n']).length (mb ++ ['\n']) rfl
          (List.getLast?_concat mb), linesOf_single mb hm]
      rcases hpre with hpre | hpre
      · rw [linesOf_append ((mb ++ ['\n']) ++ post) pre.length pre rfl hpre,
          hmid]
      · subst hpre
        have h0 : linesOf ([] : List Char) = [] := by
          rw [linesOf]
          simp
        simpa [h0] using hmid
    rw [hlines, List.foldl_append, List.foldl_append,
      foldClassify_no_init _ _ hpreN]
    simp only [List.foldl_cons, List.foldl_nil, hminit, if_true]
    exact foldClassify_no_init _ _ hpost

/-- The empty stream has no lines. -/
theorem linesOf_nil : linesOf ([] : List Char) = [] := by
  rw [linesOf]
  simp

set_option maxRecDepth 8000 in
/-- C9 (witness): a concrete 770-byte log whose single InitGame marker (a
768-byte Team-Survivor init line, padded with spaces) starts exactly 768
bytes before the end of the file. -/
theorem find_game_start_boundary_witness :
    find_game_start
      ("x\n".toList ++
        ((("0:00 InitGame: \\g_gametype\\4".toList ++
            List.replicate 739 ' ') ++ ['\n']) ++ []))
      ⟨false, false, false, true⟩ =
      some (classifyInit ⟨false, false, false, true⟩
        (("0:00 InitGame: \\g_gametype\\4".toList ++
          List.replicate 739 ' ') ++ ['\n'])) ∧
    forwardScan
      ("x\n".toList ++
        ((("0:00 InitGame: \\g_gametype\\4".toList ++
            List.replicate 739 ' ') ++ ['\n']) ++ []))
      ⟨false, false, false, true⟩ =
      classifyInit ⟨false, false, false, true⟩
        (("0:00 InitGame: \\g_gametype\\4".toList ++
          List.replicate 739 ' ') ++ ['\n']) :=
  find_game_start_boundary "x\n".toList
    ("0:00 InitGame: \\g_gametype\\4".toList ++ List.replicate 739 ' ')
    [] ⟨false, false, false, true⟩
    (by
      intro h
      rcases List.mem_append.mp h with h | h
      · revert h
        decide
      · exact absurd (List.eq_of_mem_replicate h) (by decide))
    (by decide)
    (by
      simp only [List.length_append, List.length_replicate, List.length_nil]
      decide)
    (Or.inl (by decide))
    (by
      have h1 : splitFirstLine "x\n".toList = ("x\n".toList, []) := by decide
      intro ln hln
      rw [linesOf_eq _ (by decide), h1, linesOf_nil] at hln
      simp at hln
      subst hln
      decide)
    (by
      intro ln hln
      rw [linesOf_nil] at hln
      simp at hln)

end Spunky
